import Mathlib

/-!
Verification of the field-driven query planner and CRUD orchestration of
`freddie/viewsets/sql.py`.

Python strings are modelled as Lean `String`, with `str.endswith` and
negative slicing acting on the character list.  Python runtime values are
`PyVal`, the model/schema metadata consumed by the viewset is a
`ModelSchema` record, and the stateful create/update paths are pure
functions returning an outcome together with the ordered list of database
effects they perform.
-/

namespace Freddie

/-- Python `s.endswith(t)` over code points. -/
def strEndsWith (s t : String) : Bool := decide (t.data <:+ s.data)

/-- Python `s[:-n]` (for `0 < n`): drop the last `n` characters. -/
def strDropRight (s : String) (n : Nat) : String :=
  String.mk (s.data.take (s.data.length - n))

lemma strDropRight_append (r sfx : String) :
    strDropRight (r ++ sfx) sfx.length = r := by
  cases r with
  | mk rd =>
    cases sfx with
    | mk sd =>
      show String.mk ((rd ++ sd).take ((rd ++ sd).length - sd.length)) = ⟨rd⟩
      rw [List.length_append, Nat.add_sub_cancel, List.take_left]

lemma strEndsWith_append (r sfx : String) :
    strEndsWith (r ++ sfx) sfx = true := by
  cases r with
  | mk rd =>
    cases sfx with
    | mk sd =>
      show decide (sd <:+ rd ++ sd) = true
      simp

/-- Scalar Python values (ints, strings, `None`). -/
inductive PyScalar where
  | sint (n : Int)
  | sstr (s : String)
  | snone
deriving DecidableEq

/-- Python values as they appear in serialized request payloads:
scalars or lists of scalars. -/
inductive PyVal where
  | scalar (v : PyScalar)
  | vlist (xs : List PyScalar)
deriving DecidableEq

/-- Python runtime types, as compared by `type(pk) != ...` in `lookup_expr`. -/
inductive PyType where
  | tInt
  | tStr
  | tNoneType
  | tList
deriving DecidableEq

/-- Python `type(v)`. -/
def typeOf : PyVal → PyType
  | .scalar (.sint _) => .tInt
  | .scalar (.sstr _) => .tStr
  | .scalar .snone => .tNoneType
  | .vlist _ => .tList

/-- Python truthiness, used by `if not pk` / `if not updated` / `if not ids`. -/
def truthy : PyVal → Bool
  | .scalar (.sint n) => n != 0
  | .scalar (.sstr s) => s != ""
  | .scalar .snone => false
  | .vlist xs => !xs.isEmpty

/-- Modelled from the spec: `is_iterable` comes from `freddie/helpers.py`,
which is not part of the sources under verification; §4.4 of the spec treats
many-to-many payload values as iterable collections of ids, so list values
count as iterable here and scalars do not. -/
def is_iterable : PyVal → Bool
  | .vlist _ => true
  | .scalar _ => false

/-- Elements of an iterable value, used by `set(value)`. -/
def pyElems : PyVal → List PyScalar
  | .vlist xs => xs
  | .scalar _ => []

/-- A database field descriptor.  `relModel = some M` marks a
`ForeignKeyField` whose `rel_model` is `M`; `unique` is the field's
uniqueness flag (used by `validate_model`). -/
structure DBField where
  name : String
  relModel : Option String
  unique : Bool
deriving DecidableEq

/-- The schema metadata a `GenericModelViewSet` consumes:
`fields` models `self._model_fields` (name → field), `pkField` models
`self.pk_field`, `propsDeps` models `self._model_props_dependencies`
(computed property → list of required fields), and `manytomany` models
`self.model.manytomany` (relation name → many-to-many field descriptor). -/
structure ModelSchema where
  fields : List (String × DBField)
  pkField : DBField
  propsDeps : List (String × List DBField)
  manytomany : List (String × String)
deriving DecidableEq

/-- Python `self._model_fields.get(name)`. -/
def lookupField (m : ModelSchema) (name : String) : Option DBField :=
  (m.fields.find? (fun p => p.1 == name)).map Prod.snd

/-- Python `self._model_props_dependencies.get(name)` (no default). -/
def propsDepsFind (m : ModelSchema) (name : String) : Option (List DBField) :=
  (m.propsDeps.find? (fun p => p.1 == name)).map Prod.snd

/-- Python `self._model_props_dependencies.get(name, [])`. -/
def propsDepsOf (m : ModelSchema) (name : String) : List DBField :=
  (propsDepsFind m name).getD []

/-- Python `self.model.manytomany.get(name)`. -/
def m2mGet (m : ModelSchema) (name : String) : Option String :=
  (m.manytomany.find? (fun p => p.1 == name)).map Prod.snd

/-- Source constant `FK_FIELD_POSTFIX = '_id'`. -/
def FK_ID_SUFFIX : String := "_id"

/-- Source constant `M2M_FIELD_POSTFIX = '_ids'`. -/
def M2M_IDS_SUFFIX : String := "_ids"

/-- An element of the `selected` set of `get_base_query`: a plain column
(`db_field`), a whole related model (`rel_model`), or Python's `None`
(which `selected.add(self._model_fields.get(...))` inserts when the
suffix-stripped name is not a model field). -/
inductive SelItem where
  | col (f : DBField)
  | relModel (name : String)
  | pynone
deriving DecidableEq

/-- Join kinds of the query layer (`JOIN` in `freddie.db.queries`);
`get_base_query` only ever uses `JOIN.LEFT_OUTER`. -/
inductive JoinKind where
  | leftOuter
  | inner
deriving DecidableEq

/-- The query produced by `get_base_query`: the select list and the set of
joined related models, each tagged with its join kind. -/
structure PlannedQuery where
  selectList : Finset SelItem
  joins : Finset (String × JoinKind)
deriving DecidableEq

/-- The contribution of one requested field name to `(selected, joined)` in
the loop body of `get_base_query` (sql.py lines 123-148). -/
def fieldContribution (m : ModelSchema) (fieldName : String) :
    List SelItem × List String :=
  match lookupField m fieldName with
  | Option.none =>
    if strEndsWith fieldName FK_ID_SUFFIX then
      match lookupField m (strDropRight fieldName FK_ID_SUFFIX.length) with
      | Option.some f => ([SelItem.col f], [])
      | Option.none => ([SelItem.pynone], [])
    else
      ((propsDepsOf m fieldName).map SelItem.col ++
        ((propsDepsOf m fieldName).filterMap (fun f => f.relModel)).map
          SelItem.relModel,
       (propsDepsOf m fieldName).filterMap (fun f => f.relModel))
  | Option.some f =>
    match f.relModel with
    | Option.some rel => ([SelItem.relModel rel], [rel])
    | Option.none => ([SelItem.col f], [])

/-- The `selected` set accumulated over the requested field names.  The
source iterates a dict keyed by the field names and accumulates into a
Python set, so order and duplicates are irrelevant. -/
def selectedOf (m : ModelSchema) : List String → Finset SelItem
  | [] => ∅
  | n :: rest => (fieldContribution m n).1.toFinset ∪ selectedOf m rest

/-- The `joined` set accumulated over the requested field names. -/
def joinedOf (m : ModelSchema) : List String → Finset String
  | [] => ∅
  | n :: rest => (fieldContribution m n).2.toFinset ∪ joinedOf m rest

/-- `get_base_query` (sql.py lines 119-153): select `selected` (falling
back to the primary key only when `selected` is empty) and LEFT OUTER join
every model in `joined`. -/
def get_base_query (m : ModelSchema) (fields : List String) : PlannedQuery :=
  { selectList :=
      if selectedOf m fields = ∅ then {SelItem.col m.pkField}
      else selectedOf m fields
    joins := (joinedOf m fields).image (fun r => (r, JoinKind.leftOuter)) }

/-- A prefetch plan entry, `Prefetch(field=..., attr_name=..., ids_only=...)`. -/
structure Prefetch where
  field : String
  attr_name : String
  ids_only : Bool
deriving DecidableEq

/-- The prefetch entry one requested field name yields in
`build_prefetch_config` (sql.py lines 155-165), if any. -/
def prefetchFor (m : ModelSchema) (fieldName : String) : Option Prefetch :=
  let idsOnly := strEndsWith fieldName M2M_IDS_SUFFIX
  let lookupName :=
    if idsOnly then strDropRight fieldName M2M_IDS_SUFFIX.length else fieldName
  match m2mGet m lookupName with
  | Option.some f => Option.some ⟨f, fieldName, idsOnly⟩
  | Option.none => Option.none

/-- `build_prefetch_config`: the prefetch entries yielded for a requested
field list, in order. -/
def build_prefetch_config (m : ModelSchema) (fields : List String) :
    List Prefetch :=
  fields.filterMap (prefetchFor m)

/-- An equality predicate `field == value` as returned by `lookup_expr`. -/
structure Expression where
  field : DBField
  value : PyVal
deriving DecidableEq

/-- The per-viewset configuration consumed by `lookup_expr` and
`validate_model`: `pk_field`, the optional `secondary_lookup_field`, and
`_pk_type_choices` (whose first element is the primary key's declared
type). -/
structure ViewsetCfg where
  pkField : DBField
  secondaryLookupField : Option DBField
  pkTypeChoices : List PyType
deriving DecidableEq

/-- `lookup_expr` (sql.py lines 101-104).  `none` models the `IndexError`
Python would raise on `self._pk_type_choices[0]` with an empty choice list
(reachable only when a secondary lookup field is configured). -/
def lookup_expr (cfg : ViewsetCfg) (pk : PyVal) : Option Expression :=
  match cfg.secondaryLookupField with
  | Option.some sf =>
    match cfg.pkTypeChoices with
    | [] => Option.none
    | t0 :: _ =>
      if typeOf pk ≠ t0 then Option.some ⟨sf, pk⟩
      else Option.some ⟨cfg.pkField, pk⟩
  | Option.none => Option.some ⟨cfg.pkField, pk⟩

/-- The class-level facts asserted by the first four assertions of
`validate_model` (model is a class, subclasses `Model`, has a database and
a manager). -/
structure ModelMeta where
  isClass : Bool
  isModelSubclass : Bool
  dbSet : Bool
  managerSet : Bool
deriving DecidableEq

/-- The construction-time assertion failures of `validate_model`, in
source order. -/
inductive ConfigError where
  | schemaNotAClass
  | schemaNotModelSubclass
  | databaseNotSet
  | managerNotSet
  | secondaryTypeNotSet
  | secondaryNotUnique
deriving DecidableEq

/-- `validate_model` (sql.py lines 75-85), run during handler
construction (`__init__`).  Each failed `assert` becomes the
corresponding `ConfigError`; `len(self._pk_type_choices) > 1` fails
exactly when the length is at most one. -/
def validate_model (meta : ModelMeta) (cfg : ViewsetCfg) :
    Except ConfigError Unit :=
  if meta.isClass = false then Except.error ConfigError.schemaNotAClass
  else if meta.isModelSubclass = false then
    Except.error ConfigError.schemaNotModelSubclass
  else if meta.dbSet = false then Except.error ConfigError.databaseNotSet
  else if meta.managerSet = false then Except.error ConfigError.managerNotSet
  else
    match cfg.secondaryLookupField with
    | Option.some sf =>
      if cfg.pkTypeChoices.length ≤ 1 then
        Except.error ConfigError.secondaryTypeNotSet
      else if sf.unique = false then
        Except.error ConfigError.secondaryNotUnique
      else Except.ok ()
    | Option.none => Except.ok ()

/-- Python dict assignment `d[k] = v` on an association list that keeps
first-insertion order, as Python dicts do. -/
def dictSet (d : List (String × PyVal)) (k : String) (v : PyVal) :
    List (String × PyVal) :=
  if d.any (fun kv => kv.1 == k) then
    d.map (fun kv => if kv.1 == k then (k, v) else kv)
  else d ++ [(k, v)]

/-- One iteration of the key-classification loop of
`serialize_request_body_for_db` (sql.py lines 190-204). -/
def serializeStep (m : ModelSchema)
    (acc : List (String × PyVal) × List (String × Finset PyScalar))
    (kv : String × PyVal) :
    List (String × PyVal) × List (String × Finset PyScalar) :=
  if (lookupField m kv.1).isSome then (dictSet acc.1 kv.1 kv.2, acc.2)
  else if strEndsWith kv.1 FK_ID_SUFFIX then
    if (lookupField m (strDropRight kv.1 FK_ID_SUFFIX.length)).isSome then
      (dictSet acc.1 (strDropRight kv.1 FK_ID_SUFFIX.length) kv.2, acc.2)
    else acc
  else if strEndsWith kv.1 M2M_IDS_SUFFIX && is_iterable kv.2 then
    match m2mGet m (strDropRight kv.1 M2M_IDS_SUFFIX.length) with
    | Option.some f => (acc.1, acc.2 ++ [(f, (pyElems kv.2).toFinset)])
    | Option.none => acc
  else acc

/-- `serialize_request_body_for_db` (sql.py lines 181-205), taking as
input the already-serialized payload dict (the result of `body.dict(...)`
after read-only/primary-key exclusion, which is performed by the external
schema layer), and returning `(data, related)`. -/
def serialize_request_body_for_db (m : ModelSchema)
    (serialized : List (String × PyVal)) :
    List (String × PyVal) × List (String × Finset PyScalar) :=
  serialized.foldl (serializeStep m) ([], [])

/-- Database effects performed by the create/update paths, in order. -/
inductive DBEffect where
  | insertRow (data : List (String × PyVal))
  | updateRow (pk : PyVal) (data : List (String × PyVal))
  | setRelatedEff (pk : PyVal) (field : String) (ids : Finset PyScalar)
  | fetchObject (pk : PyVal)
deriving DecidableEq

/-- Outcome of a create/update request. -/
inductive WriteOutcome where
  | unprocessable
  | serverError
  | ok (pk : PyVal)
deriving DecidableEq

/-- The relation-sync writes of `ModelCreateViewset.create` (sql.py lines
255-259): pairs with an empty (falsy) id-set are skipped via `continue`. -/
def relatedEffectsCreate (pk : PyVal) :
    List (String × Finset PyScalar) → List DBEffect
  | [] => []
  | (f, ids) :: rest =>
    if ids = ∅ then relatedEffectsCreate pk rest
    else DBEffect.setRelatedEff pk f ids :: relatedEffectsCreate pk rest

/-- The relation-sync writes of `ModelUpdateViewset.update` (sql.py lines
283-285): every pair is written, empty id-sets included. -/
def relatedEffectsUpdate (pk : PyVal)
    (related : List (String × Finset PyScalar)) : List DBEffect :=
  related.map (fun p => DBEffect.setRelatedEff pk p.1 p.2)

/-- `ModelCreateViewset.create` (sql.py lines 247-260) given the decoded
payload.  `insertedPk` is the value the database manager returns for the
insert;entirely empty `data` raises `Unprocessable` before any effect. -/
def createCore (data : List (String × PyVal))
    (related : List (String × Finset PyScalar)) (insertedPk : PyVal) :
    WriteOutcome × List DBEffect :=
  if data.isEmpty then (WriteOutcome.unprocessable, [])
  else if truthy insertedPk = false then
    (WriteOutcome.serverError, [DBEffect.insertRow data])
  else
    (WriteOutcome.ok insertedPk,
      DBEffect.insertRow data :: relatedEffectsCreate insertedPk related)

/-- `ModelUpdateViewset.update` (sql.py lines 274-286) given the decoded
payload.  `updatedCount` is the value the database manager returns for the
UPDATE query; when `data` is empty the UPDATE is skipped entirely. -/
def updateCore (pk : PyVal) (data : List (String × PyVal))
    (related : List (String × Finset PyScalar)) (updatedCount : PyVal) :
    WriteOutcome × List DBEffect :=
  if data.isEmpty then (WriteOutcome.ok pk, relatedEffectsUpdate pk related)
  else if truthy updatedCount = false then
    (WriteOutcome.serverError, [DBEffect.updateRow pk data])
  else
    (WriteOutcome.ok pk,
      DBEffect.updateRow pk data :: relatedEffectsUpdate pk related)

/-- The `perform_api_action` wrappers (sql.py lines 241-245 and 268-272):
on success the full entity is re-fetched via `get_object_or_404`. -/
def withRefetch (r : WriteOutcome × List DBEffect) :
    WriteOutcome × List DBEffect :=
  match r.1 with
  | WriteOutcome.ok pk => (r.1, r.2 ++ [DBEffect.fetchObject pk])
  | _ => r

/-- The full create path: decode the payload, run `create`, re-fetch. -/
def createAction (m : ModelSchema) (serialized : List (String × PyVal))
    (insertedPk : PyVal) : WriteOutcome × List DBEffect :=
  withRefetch
    (createCore (serialize_request_body_for_db m serialized).1
      (serialize_request_body_for_db m serialized).2 insertedPk)

/-- The full update path: decode the payload, run `update`, re-fetch. -/
def updateAction (m : ModelSchema) (pk : PyVal)
    (serialized : List (String × PyVal)) (updatedCount : PyVal) :
    WriteOutcome × List DBEffect :=
  withRefetch
    (updateCore pk (serialize_request_body_for_db m serialized).1
      (serialize_request_body_for_db m serialized).2 updatedCount)

/-! Concrete example schema used by witnesses and counterexamples:
a model with plain columns `id` (primary key) and `name`, a foreign-key
field `category` (database column `category_id`) to model `Category`,
a computed property `display_name` depending on `name`, and a
many-to-many relation `tags`. -/

def idField : DBField := ⟨"id", Option.none, true⟩

def nameField : DBField := ⟨"name", Option.none, false⟩

def categoryField : DBField := ⟨"category", Option.some "Category", false⟩

def slugField : DBField := ⟨"slug", Option.none, true⟩

def exSchema : ModelSchema :=
  { fields := [("id", idField), ("name", nameField), ("category", categoryField)]
    pkField := idField
    propsDeps := [("display_name", [nameField])]
    manytomany := [("tags", "Post.tags")] }

def exSchemaPkOnly : ModelSchema :=
  { fields := [("id", idField)]
    pkField := idField
    propsDeps := []
    manytomany := [] }

def exSchemaOddM2M : ModelSchema :=
  { fields := [("id", idField)]
    pkField := idField
    propsDeps := []
    manytomany := [("member_ids", "Group.member_ids")] }

def exCfg : ViewsetCfg :=
  ⟨idField, Option.some slugField, [PyType.tInt, PyType.tStr]⟩

/-! Helper lemmas about the planner accumulators. -/

lemma mem_selectedOf (m : ModelSchema) {n : String} {fields : List String}
    (hn : n ∈ fields) {x : SelItem} (hx : x ∈ (fieldContribution m n).1) :
    x ∈ selectedOf m fields := by
  induction fields with
  | nil => cases hn
  | cons a rest ih =>
    rw [selectedOf]
    rcases List.mem_cons.mp hn with h | h
    · subst h
      exact Finset.mem_union_left _ (List.mem_toFinset.mpr hx)
    · exact Finset.mem_union_right _ (ih h)

lemma mem_joinedOf (m : ModelSchema) {n : String} {fields : List String}
    (hn : n ∈ fields) {r : String} (hr : r ∈ (fieldContribution m n).2) :
    r ∈ joinedOf m fields := by
  induction fields with
  | nil => cases hn
  | cons a rest ih =>
    rw [joinedOf]
    rcases List.mem_cons.mp hn with h | h
    · subst h
      exact Finset.mem_union_left _ (List.mem_toFinset.mpr hr)
    · exact Finset.mem_union_right _ (ih h)

lemma selectList_of_ne (m : ModelSchema) (fields : List String)
    (h : selectedOf m fields ≠ ∅) :
    (get_base_query m fields).selectList = selectedOf m fields := by
  simp [get_base_query, h]

lemma mem_joins_of_mem_joinedOf (m : ModelSchema) {fields : List String}
    {r : String} (hr : r ∈ joinedOf m fields) :
    (r, JoinKind.leftOuter) ∈ (get_base_query m fields).joins := by
  show (r, JoinKind.leftOuter) ∈
    (joinedOf m fields).image (fun x => (x, JoinKind.leftOuter))
  exact Finset.mem_image_of_mem _ hr

lemma selectedOf_eq_empty (m : ModelSchema) {fields : List String}
    (h : ∀ n ∈ fields, (fieldContribution m n).1 = []) :
    selectedOf m fields = ∅ := by
  induction fields with
  | nil => rfl
  | cons a rest ih =>
    rw [selectedOf, h a (List.mem_cons_self a rest),
      ih (fun n hn => h n (List.mem_cons_of_mem a hn))]
    simp

lemma joinedOf_eq_empty (m : ModelSchema) {fields : List String}
    (h : ∀ n ∈ fields, (fieldContribution m n).2 = []) :
    joinedOf m fields = ∅ := by
  induction fields with
  | nil => rfl
  | cons a rest ih =>
    rw [joinedOf, h a (List.mem_cons_self a rest),
      ih (fun n hn => h n (List.mem_cons_of_mem a hn))]
    simp

lemma joinedOf_filter (m : ModelSchema) (n : String)
    (h : (fieldContribution m n).2 = []) (fields : List String) :
    joinedOf m (fields.filter (fun s => !(s == n))) = joinedOf m fields := by
  induction fields with
  | nil => rfl
  | cons a rest ih =>
    rw [List.filter_cons]
    by_cases ha : a = n
    · subst ha
      rw [if_neg (show ¬((!(a == a)) = true) by simp)]
      rw [ih, joinedOf, h]
      simp
    · rw [if_pos (show (!(a == n)) = true by simp [ha])]
      rw [joinedOf, joinedOf, ih]

lemma fieldContribution_unknown (m : ModelSchema) {n : String}
    (h1 : lookupField m n = Option.none)
    (h2 : strEndsWith n FK_ID_SUFFIX = false)
    (h3 : propsDepsFind m n = Option.none) :
    fieldContribution m n = ([], []) := by
  simp [fieldContribution, h1, h2, propsDepsOf, h3]

lemma fieldContribution_fk_id (m : ModelSchema) {f : String} {ff : DBField}
    (h1 : lookupField m (f ++ FK_ID_SUFFIX) = Option.none)
    (h2 : lookupField m f = Option.some ff) :
    fieldContribution m (f ++ FK_ID_SUFFIX) = ([SelItem.col ff], []) := by
  simp [fieldContribution, h1, strEndsWith_append, strDropRight_append, h2]

lemma fieldContribution_fk_direct (m : ModelSchema) {n : String}
    {ff : DBField} {rel : String}
    (h1 : lookupField m n = Option.some ff)
    (h2 : ff.relModel = Option.some rel) :
    fieldContribution m n = ([SelItem.relModel rel], [rel]) := by
  simp [fieldContribution, h1, h2]

lemma fieldContribution_props (m : ModelSchema) {n : String}
    (h1 : lookupField m n = Option.none)
    (h2 : strEndsWith n FK_ID_SUFFIX = false) :
    fieldContribution m n =
      ((propsDepsOf m n).map SelItem.col ++
        ((propsDepsOf m n).filterMap (fun f => f.relModel)).map
          SelItem.relModel,
       (propsDepsOf m n).filterMap (fun f => f.relModel)) := by
  simp [fieldContribution, h1, h2]

lemma mem_relatedEffectsCreate (pk : PyVal) {f : String}
    {ids : Finset PyScalar} {related : List (String × Finset PyScalar)}
    (hmem : (f, ids) ∈ related) (hne : ids ≠ ∅) :
    DBEffect.setRelatedEff pk f ids ∈ relatedEffectsCreate pk related := by
  induction hmem with
  | head rest =>
    rw [relatedEffectsCreate, if_neg hne]
    exact List.mem_cons_self _ _
  | tail b _ ih =>
    obtain ⟨bf, bids⟩ := b
    rw [relatedEffectsCreate]
    by_cases hb : bids = ∅
    · rw [if_pos hb]; exact ih
    · rw [if_neg hb]; exact List.mem_cons_of_mem _ ih

lemma not_mem_relatedEffectsCreate_empty (pk q : PyVal) (g : String)
    (related : List (String × Finset PyScalar)) :
    DBEffect.setRelatedEff q g ∅ ∉ relatedEffectsCreate pk related := by
  induction related with
  | nil => simp [relatedEffectsCreate]
  | cons a rest ih =>
    obtain ⟨af, aids⟩ := a
    rw [relatedEffectsCreate]
    by_cases h : aids = ∅
    · rw [if_pos h]; exact ih
    · rw [if_neg h]
      intro hc
      rcases List.mem_cons.mp hc with he | he
      · exact h (by injection he with _ _ h3; exact h3.symm)
      · exact ih he

lemma mem_relatedEffectsUpdate (pk : PyVal) {f : String}
    {ids : Finset PyScalar} {related : List (String × Finset PyScalar)}
    (hmem : (f, ids) ∈ related) :
    DBEffect.setRelatedEff pk f ids ∈ relatedEffectsUpdate pk related := by
  have := List.mem_map_of_mem
    (fun p : String × Finset PyScalar => DBEffect.setRelatedEff pk p.1 p.2) hmem
  simpa [relatedEffectsUpdate] using this

/-! Claim C1. -/

/-- C1 counterexample: `"foo_id"` matches neither a schema column, nor a
foreign-key/many-to-many suffixed match, nor a property-dependency entry,
yet `get_base_query` does not select the primary key: the loop executes
`selected.add(self._model_fields.get("foo"))`, inserting Python `None`
into `selected`, so the primary-key fallback is suppressed and the select
list is `{None}` instead of `{id}`. -/
theorem c1_counterexample :
    lookupField exSchemaPkOnly "foo_id" = Option.none ∧
    lookupField exSchemaPkOnly "foo" = Option.none ∧
    propsDepsFind exSchemaPkOnly "foo_id" = Option.none ∧
    m2mGet exSchemaPkOnly "foo" = Option.none ∧
    (get_base_query exSchemaPkOnly ["foo_id"]).selectList ≠
      {SelItem.col exSchemaPkOnly.pkField} ∧
    (get_base_query exSchemaPkOnly ["foo_id"]).selectList = {SelItem.pynone} ∧
    (get_base_query exSchemaPkOnly ["foo_id"]).joins = ∅ := by
  decide

/-- C1 (amended): for every requested field set containing only names
that are neither schema columns nor computed-property dependency entries
and that do not end with the foreign-key suffix `'_id'`, `get_base_query`
selects exactly the primary key column and performs no joins; each such
unknown name is silently dropped.  (An unknown name ending in `'_id'`
whose stripped form is also unknown instead adds a `None` entry to the
selected set, suppressing the primary-key fallback.) -/
theorem c1_amended_theorem (m : ModelSchema) (fields : List String)
    (h : ∀ n ∈ fields, lookupField m n = Option.none ∧
      strEndsWith n FK_ID_SUFFIX = false ∧ propsDepsFind m n = Option.none) :
    (get_base_query m fields).selectList = {SelItem.col m.pkField} ∧
    (get_base_query m fields).joins = ∅ := by
  have hnil : ∀ n ∈ fields, fieldContribution m n = ([], []) := fun n hn =>
    fieldContribution_unknown m (h n hn).1 (h n hn).2.1 (h n hn).2.2
  have hsel : selectedOf m fields = ∅ :=
    selectedOf_eq_empty m (fun n hn => by rw [hnil n hn])
  have hjoin : joinedOf m fields = ∅ :=
    joinedOf_eq_empty m (fun n hn => by rw [hnil n hn])
  constructor
  · simp [get_base_query, hsel]
  · simp [get_base_query, hjoin]

/-- C1 witness: a concrete only-unknown-names request on the example
schema degrades to a primary-key-only, join-free query. -/
theorem c1_witness :
    (get_base_query exSchemaPkOnly ["bogus", "mystery"]).selectList =
      {SelItem.col exSchemaPkOnly.pkField} ∧
    (get_base_query exSchemaPkOnly ["bogus", "mystery"]).joins = ∅ :=
  c1_amended_theorem exSchemaPkOnly ["bogus", "mystery"] (by decide)

/-! Claim C2. -/

/-- C2: for every field name `f` that is a foreign-key column of the
schema, when `f ++ "_id"` (itself not a schema column) is requested, its
loop iteration contributes exactly the foreign-key column `f` to the
selection and nothing to the joins; hence the base query selects column
`f`, and dropping `f ++ "_id"` from the request changes no join. -/
theorem c2_theorem (m : ModelSchema) (fields : List String) (f : String)
    (ff : DBField) (rel : String)
    (_hfk : ff.relModel = Option.some rel)
    (h1 : lookupField m f = Option.some ff)
    (h2 : lookupField m (f ++ FK_ID_SUFFIX) = Option.none) :
    fieldContribution m (f ++ FK_ID_SUFFIX) = ([SelItem.col ff], []) ∧
    (f ++ FK_ID_SUFFIX ∈ fields →
      SelItem.col ff ∈ (get_base_query m fields).selectList) ∧
    joinedOf m (fields.filter (fun s => !(s == f ++ FK_ID_SUFFIX))) =
      joinedOf m fields := by
  have hc : fieldContribution m (f ++ FK_ID_SUFFIX) = ([SelItem.col ff], []) :=
    fieldContribution_fk_id m h2 h1
  refine ⟨hc, ?_, ?_⟩
  · intro hmem
    have hx : SelItem.col ff ∈ (fieldContribution m (f ++ FK_ID_SUFFIX)).1 := by
      rw [hc]; exact List.mem_singleton.mpr rfl
    have hsel := mem_selectedOf m hmem hx
    rw [selectList_of_ne m fields (Finset.ne_empty_of_mem hsel)]
    exact hsel
  · exact joinedOf_filter m (f ++ FK_ID_SUFFIX) (by rw [hc]) fields

/-- C2 witness: on the example schema, requesting `"category_id"` (not a
schema column; `category` is the foreign-key column) selects the
foreign-key column and the request contributes no join. -/
theorem c2_witness :
    SelItem.col categoryField ∈
      (get_base_query exSchema ["category" ++ FK_ID_SUFFIX]).selectList ∧
    joinedOf exSchema
        (["category" ++ FK_ID_SUFFIX].filter
          (fun s => !(s == "category" ++ FK_ID_SUFFIX))) =
      joinedOf exSchema ["category" ++ FK_ID_SUFFIX] :=
  ⟨(c2_theorem exSchema ["category" ++ FK_ID_SUFFIX] "category" categoryField
      "Category" (by decide) (by decide) (by decide)).2.1 (by decide),
   (c2_theorem exSchema ["category" ++ FK_ID_SUFFIX] "category" categoryField
      "Category" (by decide) (by decide) (by decide)).2.2⟩

/-! Claim C3. -/

/-- C3: for every requested field name that is directly a foreign-key
column of the schema, the base query selects the full related model and
adds a LEFT OUTER join to it. -/
theorem c3_theorem (m : ModelSchema) (fields : List String) (n : String)
    (ff : DBField) (rel : String)
    (h1 : lookupField m n = Option.some ff)
    (h2 : ff.relModel = Option.some rel)
    (hn : n ∈ fields) :
    SelItem.relModel rel ∈ (get_base_query m fields).selectList ∧
    (rel, JoinKind.leftOuter) ∈ (get_base_query m fields).joins := by
  have hc : fieldContribution m n = ([SelItem.relModel rel], [rel]) :=
    fieldContribution_fk_direct m h1 h2
  constructor
  · have hx : SelItem.relModel rel ∈ (fieldContribution m n).1 := by
      rw [hc]; exact List.mem_singleton.mpr rfl
    have hsel := mem_selectedOf m hn hx
    rw [selectList_of_ne m fields (Finset.ne_empty_of_mem hsel)]
    exact hsel
  · have hr : rel ∈ (fieldContribution m n).2 := by
      rw [hc]; exact List.mem_singleton.mpr rfl
    exact mem_joins_of_mem_joinedOf m (mem_joinedOf m hn hr)

/-- C3 witness: requesting the foreign-key column `"category"` on the
example schema selects the `Category` model and LEFT OUTER joins it. -/
theorem c3_witness :
    SelItem.relModel "Category" ∈
      (get_base_query exSchema ["id", "category"]).selectList ∧
    ("Category", JoinKind.leftOuter) ∈
      (get_base_query exSchema ["id", "category"]).joins :=
  c3_theorem exSchema ["id", "category"] "category" categoryField "Category"
    (by decide) (by decide) (by decide)

/-! Claim C4. -/

/-- C4: a requested name that is not a schema column and does not end in
the foreign-key suffix is treated as a computed property: every column in
its dependency set is selected (an unknown property contributes nothing,
its dependency set being empty), and every dependency that is itself a
foreign-key column additionally LEFT OUTER joins its related model.  In
particular, on a model with columns `id`, `name` and foreign key
`category`, and property `display_name` depending on `name`, requesting
`{id, display_name, category_id}` selects `{id, name, category}` with no
join. -/
theorem c4_theorem (m : ModelSchema) (fields : List String) (n : String)
    (h1 : lookupField m n = Option.none)
    (h2 : strEndsWith n FK_ID_SUFFIX = false) :
    ((propsDepsFind m n = Option.none → fieldContribution m n = ([], [])) ∧
     (n ∈ fields → ∀ d ∈ propsDepsOf m n,
        SelItem.col d ∈ (get_base_query m fields).selectList) ∧
     (n ∈ fields → ∀ d ∈ propsDepsOf m n, ∀ rel,
        d.relModel = Option.some rel →
        (rel, JoinKind.leftOuter) ∈ (get_base_query m fields).joins)) ∧
    get_base_query exSchema ["id", "display_name", "category_id"] =
      ⟨{SelItem.col idField, SelItem.col nameField, SelItem.col categoryField},
       ∅⟩ := by
  have hc := fieldContribution_props m h1 h2
  refine ⟨⟨?_, ?_, ?_⟩, by decide⟩
  · intro h3
    exact fieldContribution_unknown m h1 h2 h3
  · intro hn d hd
    have hx : SelItem.col d ∈ (fieldContribution m n).1 := by
      rw [hc]
      exact List.mem_append_left _ (List.mem_map_of_mem SelItem.col hd)
    have hsel := mem_selectedOf m hn hx
    rw [selectList_of_ne m fields (Finset.ne_empty_of_mem hsel)]
    exact hsel
  · intro hn d hd rel hrel
    have hr : rel ∈ (fieldContribution m n).2 := by
      rw [hc]
      exact List.mem_filterMap.mpr ⟨d, hd, hrel⟩
    exact mem_joins_of_mem_joinedOf m (mem_joinedOf m hn hr)

/-- C4 witness: the dependency `name` of the computed property
`display_name` is selected when `display_name` is requested. -/
theorem c4_witness :
    SelItem.col nameField ∈
      (get_base_query exSchema ["display_name"]).selectList :=
  (c4_theorem exSchema ["display_name"] "display_name"
      (by decide) (by decide)).1.2.1 (by decide) nameField (by decide)

/-! Claim C5. -/

/-- C5 counterexample: `"member_ids"` is itself a many-to-many relation
name of the schema, yet requesting it yields no prefetch entry at all
(ids_only=false or otherwise): because the name ends with the
many-to-many suffix, `build_prefetch_config` strips it to `"member"`
before the relation lookup, which fails. -/
theorem c5_counterexample :
    m2mGet exSchemaOddM2M "member_ids" = Option.some "Group.member_ids" ∧
    build_prefetch_config exSchemaOddM2M ["member_ids"] = [] := by
  decide

/-- C5 (amended): for a many-to-many relation `r` whose name does not end
with the suffix `'_ids'`, requesting `r` yields a prefetch entry with
ids_only=false attached under attribute `r`; requesting `r ++ "_ids"`
yields (for any relation `r`) a prefetch entry with ids_only=true
attached under the un-stripped attribute `r ++ "_ids"`; and a field name
whose (conditionally suffix-stripped) form is not a many-to-many relation
yields no prefetch entry.  (A relation whose own name ends in `'_ids'` is
suffix-stripped before lookup, so requesting it verbatim yields no
entry.) -/
theorem c5_amended_theorem (m : ModelSchema) (fields : List String)
    (r : String) (f : String) (hr : m2mGet m r = Option.some f) :
    (strEndsWith r M2M_IDS_SUFFIX = false →
      prefetchFor m r = Option.some ⟨f, r, false⟩ ∧
      (r ∈ fields → Prefetch.mk f r false ∈ build_prefetch_config m fields)) ∧
    (prefetchFor m (r ++ M2M_IDS_SUFFIX) =
        Option.some ⟨f, r ++ M2M_IDS_SUFFIX, true⟩ ∧
      (r ++ M2M_IDS_SUFFIX ∈ fields →
        Prefetch.mk f (r ++ M2M_IDS_SUFFIX) true ∈
          build_prefetch_config m fields)) ∧
    (∀ name : String,
      m2mGet m
        (if strEndsWith name M2M_IDS_SUFFIX then
          strDropRight name M2M_IDS_SUFFIX.length
        else name) = Option.none →
      prefetchFor m name = Option.none) := by
  refine ⟨?_, ⟨?_, ?_⟩, ?_⟩
  · intro hsfx
    have hp : prefetchFor m r = Option.some ⟨f, r, false⟩ := by
      simp [prefetchFor, hsfx, hr]
    exact ⟨hp, fun hmem =>
      List.mem_filterMap.mpr ⟨r, hmem, hp⟩⟩
  · simp [prefetchFor, strEndsWith_append, strDropRight_append, hr]
  · intro hmem
    have hp : prefetchFor m (r ++ M2M_IDS_SUFFIX) =
        Option.some ⟨f, r ++ M2M_IDS_SUFFIX, true⟩ := by
      simp [prefetchFor, strEndsWith_append, strDropRight_append, hr]
    exact List.mem_filterMap.mpr ⟨r ++ M2M_IDS_SUFFIX, hmem, hp⟩
  · intro name hnone
    by_cases hsfx : strEndsWith name M2M_IDS_SUFFIX = true
    · rw [if_pos hsfx] at hnone
      simp [prefetchFor, hsfx, hnone]
    · rw [if_neg hsfx] at hnone
      simp [prefetchFor, Bool.eq_false_iff.mpr hsfx, hnone]

/-- C5 witness: on the example schema, requesting `"tags"` yields a full
prefetch entry, requesting `"tags_ids"` yields an ids-only entry under
the un-stripped attribute, and `"bogus"` yields none. -/
theorem c5_witness :
    Prefetch.mk "Post.tags" "tags" false ∈
      build_prefetch_config exSchema ["tags", "tags" ++ M2M_IDS_SUFFIX] ∧
    Prefetch.mk "Post.tags" ("tags" ++ M2M_IDS_SUFFIX) true ∈
      build_prefetch_config exSchema ["tags", "tags" ++ M2M_IDS_SUFFIX] ∧
    prefetchFor exSchema "bogus" = Option.none :=
  ⟨((c5_amended_theorem exSchema ["tags", "tags" ++ M2M_IDS_SUFFIX] "tags"
      "Post.tags" (by decide)).1 (by decide)).2 (by decide),
   ((c5_amended_theorem exSchema ["tags", "tags" ++ M2M_IDS_SUFFIX] "tags"
      "Post.tags" (by decide)).2.1).2 (by decide),
   (c5_amended_theorem exSchema ["tags", "tags" ++ M2M_IDS_SUFFIX] "tags"
      "Post.tags" (by decide)).2.2 "bogus" (by decide)⟩

/-! Claim C6. -/

/-- C6: with the primary key's declared type being the first primary-key
type choice, `lookup_expr` returns an equality predicate against the
secondary lookup field exactly when one is configured and the supplied
value's runtime type differs from that declared type; with a matching
type, or with no secondary field configured, it returns an equality
predicate against the primary-key column. -/
theorem c6_theorem (cfg : ViewsetCfg) (pk : PyVal) (t0 : PyType)
    (rest : List PyType) (hch : cfg.pkTypeChoices = t0 :: rest) :
    (∀ sf, cfg.secondaryLookupField = Option.some sf → typeOf pk ≠ t0 →
      lookup_expr cfg pk = Option.some ⟨sf, pk⟩) ∧
    (typeOf pk = t0 →
      lookup_expr cfg pk = Option.some ⟨cfg.pkField, pk⟩) ∧
    (cfg.secondaryLookupField = Option.none →
      lookup_expr cfg pk = Option.some ⟨cfg.pkField, pk⟩) := by
  refine ⟨?_, ?_, ?_⟩
  · intro sf hsf hty
    simp [lookup_expr, hsf, hch, hty]
  · intro hty
    cases hsec : cfg.secondaryLookupField with
    | none => simp [lookup_expr, hsec]
    | some sf => simp [lookup_expr, hsec, hch, hty]
  · intro hsec
    simp [lookup_expr, hsec]

/-- C6 witness: with primary-key type `int` and a configured secondary
lookup field, a string value routes to the secondary field and an integer
value routes to the primary key. -/
theorem c6_witness :
    lookup_expr exCfg (PyVal.scalar (PyScalar.sstr "some-slug")) =
      Option.some ⟨slugField, PyVal.scalar (PyScalar.sstr "some-slug")⟩ ∧
    lookup_expr exCfg (PyVal.scalar (PyScalar.sint 5)) =
      Option.some ⟨exCfg.pkField, PyVal.scalar (PyScalar.sint 5)⟩ :=
  ⟨(c6_theorem exCfg (PyVal.scalar (PyScalar.sstr "some-slug")) PyType.tInt
      [PyType.tStr] rfl).1 slugField rfl (by decide),
   (c6_theorem exCfg (PyVal.scalar (PyScalar.sint 5)) PyType.tInt
      [PyType.tStr] rfl).2.1 (by decide)⟩

/-! Claim C7. -/

/-- C7: a create request whose payload decodes to an empty
column-assignment mapping fails with Unprocessable and performs no
database effect at all: no insert, no relation-sync write, no re-fetch. -/
theorem c7_theorem (m : ModelSchema) (serialized : List (String × PyVal))
    (insertedPk : PyVal)
    (h : (serialize_request_body_for_db m serialized).1 = []) :
    createAction m serialized insertedPk = (WriteOutcome.unprocessable, []) := by
  simp [createAction, createCore, h, withRefetch]

/-- C7 witness: a payload holding only an unknown key decodes to an empty
mapping, and create performs no effect. -/
theorem c7_witness :
    createAction exSchema [("mystery", PyVal.scalar (PyScalar.sint 1))]
      (PyVal.scalar (PyScalar.sint 7)) = (WriteOutcome.unprocessable, []) :=
  c7_theorem exSchema [("mystery", PyVal.scalar (PyScalar.sint 1))]
    (PyVal.scalar (PyScalar.sint 7)) (by decide)

/-! Claim C8. -/

/-- C8: for every decoded relation-sync pair, the update path writes the
pair even when its id-set is empty (clearing the relation), while the
create path writes exactly the pairs with non-empty id-sets and never
issues a relation write with an empty id-set. -/
theorem c8_theorem (pk insertedPk updatedCount : PyVal)
    (data : List (String × PyVal)) (related : List (String × Finset PyScalar))
    (f : String) (ids : Finset PyScalar) (hmem : (f, ids) ∈ related) :
    ((data = [] ∨ truthy updatedCount = true) →
      DBEffect.setRelatedEff pk f ids ∈
        (updateCore pk data related updatedCount).2) ∧
    (data ≠ [] → truthy insertedPk = true → ids ≠ ∅ →
      DBEffect.setRelatedEff insertedPk f ids ∈
        (createCore data related insertedPk).2) ∧
    (∀ q g, DBEffect.setRelatedEff q g (∅ : Finset PyScalar) ∉
      (createCore data related insertedPk).2) := by
  have hupd : DBEffect.setRelatedEff pk f ids ∈ relatedEffectsUpdate pk related :=
    mem_relatedEffectsUpdate pk hmem
  refine ⟨?_, ?_, ?_⟩
  · rintro (hdata | htr)
    · simp [updateCore, hdata]
      exact hupd
    · by_cases hdata : data = []
      · simp [updateCore, hdata]
        exact hupd
      · cases data with
        | nil => exact absurd rfl hdata
        | cons d ds =>
          simp [updateCore, htr]
          exact hupd
  · intro hdata htr hne
    have hcr : DBEffect.setRelatedEff insertedPk f ids ∈
        relatedEffectsCreate insertedPk related :=
      mem_relatedEffectsCreate insertedPk hmem hne
    cases data with
    | nil => exact absurd rfl hdata
    | cons d ds =>
      simp [createCore, htr]
      exact hcr
  · intro q g
    cases data with
    | nil => simp [createCore]
    | cons d ds =>
      by_cases htr : truthy insertedPk = false
      · simp [createCore, htr]
      · have htr' : truthy insertedPk = true := by
          revert htr; cases truthy insertedPk <;> simp
        have hcc : (createCore (d :: ds) related insertedPk).2 =
            DBEffect.insertRow (d :: ds) ::
              relatedEffectsCreate insertedPk related := by
          simp [createCore, htr']
        rw [hcc]
        intro hc
        rcases List.mem_cons.mp hc with he | he
        · cases he
        · exact not_mem_relatedEffectsCreate_empty insertedPk q g related he

/-- C8 witness: with a decoded relation list holding an empty-set pair and
a non-empty pair, update writes the empty-set pair, create writes the
non-empty pair, and create never writes an empty-set pair. -/
theorem c8_witness :
    DBEffect.setRelatedEff (PyVal.scalar (PyScalar.sint 1)) "Post.tags"
        (∅ : Finset PyScalar) ∈
      (updateCore (PyVal.scalar (PyScalar.sint 1))
        [("name", PyVal.scalar (PyScalar.sstr "x"))]
        [("Post.tags", ∅), ("Post.links", {PyScalar.sint 3})]
        (PyVal.scalar (PyScalar.sint 1))).2 ∧
    DBEffect.setRelatedEff (PyVal.scalar (PyScalar.sint 9)) "Post.links"
        {PyScalar.sint 3} ∈
      (createCore [("name", PyVal.scalar (PyScalar.sstr "x"))]
        [("Post.tags", ∅), ("Post.links", {PyScalar.sint 3})]
        (PyVal.scalar (PyScalar.sint 9))).2 ∧
    DBEffect.setRelatedEff (PyVal.scalar (PyScalar.sint 9)) "Post.tags"
        (∅ : Finset PyScalar) ∉
      (createCore [("name", PyVal.scalar (PyScalar.sstr "x"))]
        [("Post.tags", ∅), ("Post.links", {PyScalar.sint 3})]
        (PyVal.scalar (PyScalar.sint 9))).2 :=
  ⟨(c8_theorem (PyVal.scalar (PyScalar.sint 1)) (PyVal.scalar (PyScalar.sint 9))
      (PyVal.scalar (PyScalar.sint 1))
      [("name", PyVal.scalar (PyScalar.sstr "x"))]
      [("Post.tags", ∅), ("Post.links", {PyScalar.sint 3})]
      "Post.tags" ∅ (by decide)).1 (Or.inr (by decide)),
   (c8_theorem (PyVal.scalar (PyScalar.sint 1)) (PyVal.scalar (PyScalar.sint 9))
      (PyVal.scalar (PyScalar.sint 1))
      [("name", PyVal.scalar (PyScalar.sstr "x"))]
      [("Post.tags", ∅), ("Post.links", {PyScalar.sint 3})]
      "Post.links" {PyScalar.sint 3} (by decide)).2.1
      (by decide) (by decide) (by decide),
   (c8_theorem (PyVal.scalar (PyScalar.sint 1)) (PyVal.scalar (PyScalar.sint 9))
      (PyVal.scalar (PyScalar.sint 1))
      [("name", PyVal.scalar (PyScalar.sstr "x"))]
      [("Post.tags", ∅), ("Post.links", {PyScalar.sint 3})]
      "Post.tags" ∅ (by decide)).2.2
      (PyVal.scalar (PyScalar.sint 9)) "Post.tags"⟩

/-! Claim C9. -/

/-- C9: with the base model assertions passing, handler construction
fails with a configuration error whenever a secondary lookup field is
configured but the primary-key type choices number at most one, or the
secondary field is not declared unique; it succeeds for a valid
configuration, and always succeeds when no secondary field is set.
`validate_model` runs inside `__init__`, so these are construction-time
failures, not request-time ones. -/
theorem c9_theorem (meta : ModelMeta) (cfg : ViewsetCfg)
    (hc : meta.isClass = true) (hs : meta.isModelSubclass = true)
    (hd : meta.dbSet = true) (hm : meta.managerSet = true) :
    (∀ sf, cfg.secondaryLookupField = Option.some sf →
      (cfg.pkTypeChoices.length ≤ 1 →
        validate_model meta cfg = Except.error ConfigError.secondaryTypeNotSet) ∧
      (1 < cfg.pkTypeChoices.length → sf.unique = false →
        validate_model meta cfg = Except.error ConfigError.secondaryNotUnique) ∧
      (1 < cfg.pkTypeChoices.length → sf.unique = true →
        validate_model meta cfg = Except.ok ())) ∧
    (cfg.secondaryLookupField = Option.none →
      validate_model meta cfg = Except.ok ()) := by
  refine ⟨?_, ?_⟩
  · intro sf hsf
    refine ⟨?_, ?_, ?_⟩
    · intro hlen
      simp [validate_model, hc, hs, hd, hm, hsf, hlen]
    · intro hlen huniq
      simp [validate_model, hc, hs, hd, hm, hsf, Nat.not_le.mpr hlen, huniq]
    · intro hlen huniq
      simp [validate_model, hc, hs, hd, hm, hsf, Nat.not_le.mpr hlen, huniq]
  · intro hsec
    simp [validate_model, hc, hs, hd, hm, hsec]

/-- C9 witness: with a single primary-key type choice a configured
secondary lookup field is rejected; a non-unique secondary field is
rejected; a unique secondary field with two type choices is accepted. -/
theorem c9_witness :
    validate_model ⟨true, true, true, true⟩
        ⟨idField, Option.some slugField, [PyType.tInt]⟩ =
      Except.error ConfigError.secondaryTypeNotSet ∧
    validate_model ⟨true, true, true, true⟩
        ⟨idField, Option.some nameField, [PyType.tInt, PyType.tStr]⟩ =
      Except.error ConfigError.secondaryNotUnique ∧
    validate_model ⟨true, true, true, true⟩ exCfg = Except.ok () :=
  ⟨((c9_theorem ⟨true, true, true, true⟩
      ⟨idField, Option.some slugField, [PyType.tInt]⟩
      rfl rfl rfl rfl).1 slugField rfl).1 (by decide),
   ((c9_theorem ⟨true, true, true, true⟩
      ⟨idField, Option.some nameField, [PyType.tInt, PyType.tStr]⟩
      rfl rfl rfl rfl).1 nameField rfl).2.1 (by decide) (by decide),
   ((c9_theorem ⟨true, true, true, true⟩ exCfg
      rfl rfl rfl rfl).1 slugField rfl).2.2 (by decide) (by decide)⟩

/-! Claim C10. -/

/-- C10: an update request whose payload decodes to an empty
column-assignment mapping issues no UPDATE query and raises no error: it
writes every decoded relation-sync pair, returns the supplied primary
key, and the full entity is then re-fetched. -/
theorem c10_theorem (m : ModelSchema) (pk : PyVal)
    (serialized : List (String × PyVal)) (updatedCount : PyVal)
    (h : (serialize_request_body_for_db m serialized).1 = []) :
    updateAction m pk serialized updatedCount =
      (WriteOutcome.ok pk,
        relatedEffectsUpdate pk (serialize_request_body_for_db m serialized).2 ++
          [DBEffect.fetchObject pk]) ∧
    (∀ q d, DBEffect.updateRow q d ∉
      (updateAction m pk serialized updatedCount).2) := by
  have heq : updateAction m pk serialized updatedCount =
      (WriteOutcome.ok pk,
        relatedEffectsUpdate pk
          (serialize_request_body_for_db m serialized).2 ++
          [DBEffect.fetchObject pk]) := by
    simp [updateAction, updateCore, h, withRefetch]
  refine ⟨heq, ?_⟩
  intro q d
  rw [heq]
  simp [relatedEffectsUpdate]

/-- C10 witness: an update payload holding only a many-to-many sync key
decodes to an empty mapping; update succeeds, clears nothing else, writes
the relation and re-fetches. -/
theorem c10_witness :
    updateAction exSchema (PyVal.scalar (PyScalar.sint 4))
        [("tags_ids", PyVal.vlist [PyScalar.sint 1, PyScalar.sint 1])]
        (PyVal.scalar (PyScalar.sint 0)) =
      (WriteOutcome.ok (PyVal.scalar (PyScalar.sint 4)),
        relatedEffectsUpdate (PyVal.scalar (PyScalar.sint 4))
          (serialize_request_body_for_db exSchema
            [("tags_ids", PyVal.vlist [PyScalar.sint 1, PyScalar.sint 1])]).2 ++
          [DBEffect.fetchObject (PyVal.scalar (PyScalar.sint 4))]) ∧
    (∀ q d, DBEffect.updateRow q d ∉
      (updateAction exSchema (PyVal.scalar (PyScalar.sint 4))
        [("tags_ids", PyVal.vlist [PyScalar.sint 1, PyScalar.sint 1])]
        (PyVal.scalar (PyScalar.sint 0))).2) :=
  c10_theorem exSchema (PyVal.scalar (PyScalar.sint 4))
    [("tags_ids", PyVal.vlist [PyScalar.sint 1, PyScalar.sint 1])]
    (PyVal.scalar (PyScalar.sint 0)) (by decide)

end Freddie
